import Mathlib

/-!
Verification development for the Device Identity & Connection Management Layer
of the lab-testing toolkit.

The Python sources embedded here (shallowly, as pure Lean functions over
explicit state) are:
  * lab_testing/utils/device_cache.py   (cache merge, TTL read, atomic save)
  * lab_testing/tools/device_verification.py
      (verify_device_by_ip, verify_device_identity, update_device_ip_if_changed)
  * lab_testing/tools/file_transfer.py  (scp command construction / fallback)

Remote command executions (subprocess.run of ssh/scp) are modelled by passing
their results (returncode, stdout, stderr) as explicit inputs; timestamps are
explicit `Nat` arguments; the on-disk cache is an association list passed and
returned explicitly.
-/

/-! ## String helpers

Python string operations used by the sources, re-implemented structurally so
that the kernel can evaluate them on concrete inputs.
-/

/-- Python `s.lower()`: character-wise lower-casing. -/
def lowerStr (s : String) : String := ⟨s.data.map Char.toLower⟩

/-- Python `s.strip()`: drop whitespace from both ends. -/
def trimStr (s : String) : String :=
  ⟨((s.data.dropWhile Char.isWhitespace).reverse.dropWhile Char.isWhitespace).reverse⟩

/-- List-of-chars prefix test (needle is a prefix of hay). -/
def chPre : List Char → List Char → Bool
  | [], _ => true
  | _ :: _, [] => false
  | a :: as, b :: bs => a == b && chPre as bs

/-- List-of-chars substring test. -/
def chSub (needle : List Char) : List Char → Bool
  | [] => chPre needle []
  | h :: t => chPre needle (h :: t) || chSub needle t

/-- Python `needle in hay` on strings. -/
def pyIn (needle hay : String) : Bool := chSub needle.data hay.data

/-- Python truthiness of an optional string: `None` and `""` are falsy. -/
def truthy : Option String → Bool
  | some s => s ≠ ""
  | none => false

/-- Python `a or b` where `a` is an optional string and `b` a string
(used for `device_info.get("hostname") or device_id`). -/
def pyOrS (a : Option String) (b : String) : String :=
  if truthy a then a.getD "" else b

/-- Python `a or b` on two optional strings
(used for `device_info.get("unique_id") or device_info.get("soc_id")`). -/
def pyOrO (a b : Option String) : Option String :=
  if truthy a then a else b

/-! ## Data model: cache entries (device_cache.py)

A cache entry is the dictionary shape written by `identify_and_cache_device`
(device_cache.py lines 358-368) plus the bookkeeping keys `cached_at` and
`ip` added by `cache_device_info`.  The firmware payload is not involved in
any claim and is abstracted to its serialized form.
-/

/-- One entry of the `matches` list built by `verify_device_by_ip`
(device_verification.py lines 426-435). -/
structure MatchEntry where
  device_id : String
  friendly_name : String
  match_score : Nat
  reasons : List String
  configured_ip : Option String
deriving Repr, DecidableEq

/-- The dictionary passed to `cache_device_info` by its (sole) caller
`identify_and_cache_device`: every key is always present, failed lookups
carry `None` (here `none`) values. -/
structure DeviceInfoIn where
  hostname : Option String
  unique_id : Option String
  device_id : Option String
  friendly_name : Option String
  device_found : Bool
  matches_list : List MatchEntry  -- source key: the matches list
  firmware : Option String
  ssh_error : Option String
  ssh_error_type : Option String
deriving Repr, DecidableEq

/-- A stored cache entry (same keys plus `cached_at` and `ip`). -/
structure CacheEntry where
  hostname : Option String
  unique_id : Option String
  device_id : Option String
  friendly_name : Option String
  device_found : Bool
  matches_list : List MatchEntry  -- source key: the matches list
  firmware : Option String
  ssh_error : Option String
  ssh_error_type : Option String
  cached_at : Nat
  ip : String
deriving Repr, DecidableEq

/-- The empty dictionary `cache.get(ip, {})`: every `.get` on it yields the
default used by the source (`None`, `False`, `[]`, `0`). -/
def emptyEntry : CacheEntry :=
  { hostname := none, unique_id := none, device_id := none, friendly_name := none,
    device_found := false, matches_list := [], firmware := none, ssh_error := none,
    ssh_error_type := none, cached_at := 0, ip := "" }

/-- The on-disk cache: a JSON object keyed by IP, modelled as an ordered
association list (Python dicts preserve insertion order). -/
abbrev Cache := List (String × CacheEntry)

/-- Dictionary lookup `cache.get(ip)`. -/
def cacheGet (c : Cache) (ip : String) : Option CacheEntry :=
  (c.find? (fun p => p.1 == ip)).map (·.2)

/-- Dictionary store `cache[ip] = e` (overwrite in place, else append). -/
def cacheSet (c : Cache) (ip : String) (e : CacheEntry) : Cache :=
  if (c.find? (fun p => p.1 == ip)).isSome then
    c.map (fun p => if p.1 == ip then (ip, e) else p)
  else c ++ [(ip, e)]

/-- Cache expiration time, device_cache.py line 27: 24 hours in seconds. -/
def CACHE_EXPIRY_SECONDS : Nat := 24 * 60 * 60

/-- Embedding of `cache_device_info` (device_cache.py lines 189-225), the
merge of an incoming `device_info` dict into the existing entry for `ip`:

  * `existing.update(device_info)` overwrites every key that `device_info`
    carries (its caller always passes the full key set, so all nine keys);
  * if the existing entry had a (truthy) hostname and the incoming one does
    not, the old hostname is written back (and `device_found` re-read, which
    after the update is the incoming value);
  * if the merged entry has a hostname or `device_found`, the keys
    `ssh_error` / `ssh_error_type` are popped;
  * `cached_at` and `ip` are (re)stamped.

Returns the merged entry; storing it back is `cacheSet`. -/
def cache_device_info (now : Nat) (ip : String) (device_info : DeviceInfoIn)
    (stored : Option CacheEntry) : CacheEntry :=
  let existing := stored.getD emptyEntry
  let existing_hostname := existing.hostname
  let e1 : CacheEntry :=
    { existing with
      hostname := device_info.hostname,
      unique_id := device_info.unique_id,
      device_id := device_info.device_id,
      friendly_name := device_info.friendly_name,
      device_found := device_info.device_found,
      matches_list := device_info.matches_list,
      firmware := device_info.firmware,
      ssh_error := device_info.ssh_error,
      ssh_error_type := device_info.ssh_error_type }
  let e2 :=
    if truthy existing_hostname && !(truthy device_info.hostname) then
      { e1 with hostname := existing_hostname, device_found := e1.device_found }
    else e1
  let e3 :=
    if truthy e2.hostname || e2.device_found then
      { e2 with ssh_error := none, ssh_error_type := none }
    else e2
  { e3 with cached_at := now, ip := ip }

/-- Full merge-and-store step on the cache map. -/
def cacheDeviceInfoStore (now : Nat) (c : Cache) (ip : String)
    (device_info : DeviceInfoIn) : Cache :=
  cacheSet c ip (cache_device_info now ip device_info (cacheGet c ip))

/-- Embedding of `get_cached_device_info` (device_cache.py lines 123-145):
`None` when the entry is absent or stale, the stored entry otherwise.
Python compares `time.time() - cached_at > CACHE_EXPIRY_SECONDS` with real
subtraction; truncated `Nat` subtraction agrees on the `> 86400` test (a
future `cached_at` is non-expired either way). -/
def get_cached_device_info (c : Cache) (now : Nat) (ip : String) : Option CacheEntry :=
  match cacheGet c ip with
  | none => none
  | some e => if now - e.cached_at > CACHE_EXPIRY_SECONDS then none else some e

/-! ## Identity probe and resolver (device_verification.py)

`verify_device_by_ip` shells out to ssh; each `subprocess.run` outcome is an
explicit `CmdResult` input here.  The inventory configuration is an ordered
association list `device_id -> DeviceConf`.
-/

/-- Outcome of one `subprocess.run`: returncode and captured text. -/
structure CmdResult where
  returncode : Int
  stdout : String
  stderr : String
deriving Repr, DecidableEq

/-- A credential held by the credential store (`get_credential(ip, "ssh")`):
a username and an optional password. -/
structure Cred where
  username : String
  password : Option String
deriving Repr, DecidableEq

/-- Modelled from the spec: `lab_testing/utils/credentials.py` is not in the
sources; per the external-interface contract the store's
`get_credential(ref, kind)` returns the cached `{username, secret}` pair or
nothing.  Its answer for the probed IP is therefore passed in as an
`Option Cred` value. -/
def get_credential (answer : Option Cred) : Option Cred := answer

/-- One inventory record (`devices[device_id]` of the lab config). -/
structure DeviceConf where
  hostname : Option String
  unique_id : Option String
  soc_id : Option String
  friendly_name : Option String
  name : Option String
  ip : Option String
  ssh_user : Option String
deriving Repr, DecidableEq

/-- The inventory: ordered map `device_id -> DeviceConf`. -/
abbrev Config := List (String × DeviceConf)

/-- Lookup in the inventory. -/
def confGet (c : Config) (device_id : String) : Option DeviceConf :=
  (c.find? (fun p => p.1 == device_id)).map (·.2)

/-- Error classification after the key-based attempt
(device_verification.py lines 261-274): substring search over the
lower-cased STANDARD ERROR only, priority order timeout, connection
refused, permission denied / authentication failed, catch-all.
Returns `(ssh_error message, ssh_error_type)`. -/
def classifyStderr (username stderr : String) : String × String :=
  let s := lowerStr stderr
  if pyIn "timeout" s || pyIn "timed out" s then
    ("SSH timeout (" ++ username ++ ")", "timeout")
  else if pyIn "connection refused" s then
    ("SSH connection refused (" ++ username ++ ")", "connection_refused")
  else if pyIn "permission denied" s || pyIn "authentication failed" s then
    ("SSH auth failed (" ++ username ++ ")", "auth_failed")
  else
    ("SSH error (" ++ username ++ ")", "connection_error")

/-- Error classification after the password attempt
(device_verification.py lines 303-323): same priority order, but the
search text is lower-cased stderr ++ " " ++ lower-cased stdout. -/
def classifyCombined (username stderr stdout : String) : String × String :=
  let s := lowerStr stderr ++ " " ++ lowerStr stdout
  if pyIn "timeout" s || pyIn "timed out" s then
    ("SSH timeout (" ++ username ++ ")", "timeout")
  else if pyIn "connection refused" s then
    ("SSH connection refused (" ++ username ++ ")", "connection_refused")
  else if pyIn "permission denied" s || pyIn "authentication failed" s then
    ("SSH auth failed (" ++ username ++ ")", "auth_failed")
  else
    ("SSH error (" ++ username ++ ")", "connection_error")

/-- Plausibility filter applied to a candidate unique id after stripping
(device_verification.py lines 168 and 384): non-empty, not the sentinel
"NOT_FOUND", longer than 4 characters. -/
def isPlausibleUid (u : String) : Bool :=
  u != "" && u != "NOT_FOUND" && u.length > 4

/-- Outcome of the sshpass password attempt: either a completed run or a
`subprocess.TimeoutExpired` (handled at lines 294-300 by substituting a
fake result with returncode 1 and stderr "timeout"). -/
inductive PwOutcome where
  | completed (r : CmdResult)
  | timedOut
deriving Repr, DecidableEq

/-- The authentication attempts `verify_device_by_ip` actually makes for one
probe command, in order. -/
inductive Attempt where
  | keyAuth
  | passwordAuth (password : String)
  | defaultCred
deriving Repr, DecidableEq

/-- The ordered attempt chain of the hostname probe
(device_verification.py lines 240-300): the key-based run always happens;
the sshpass run happens only if it failed AND the credential store returned
an entry with a password.  No other attempt exists in the code. -/
def probeAttempts (keyRes : CmdResult) (cred : Option Cred) : List Attempt :=
  Attempt.keyAuth ::
    (if keyRes.returncode != 0 then
      match cred with
      | some c =>
        match c.password with
        | some p => [Attempt.passwordAuth p]
        | none => []
      | none => []
    else [])

/-- Result of the hostname phase: the final `hostname_result` plus the error
state `(ssh_error, ssh_error_type)` after lines 240-335. -/
structure HostnamePhaseOut where
  final : CmdResult
  hostname : Option String
  ssh_error : Option String
  ssh_error_type : Option String
deriving Repr, DecidableEq

/-- Embedding of the hostname-probe portion of `verify_device_by_ip`
(device_verification.py lines 240-335): classify the key-based failure from
stderr; on failure with a cached password retry via sshpass (a timeout there
substitutes the fake `returncode 1 / stderr "timeout"` result and both paths
re-classify from combined stderr+stdout); a final returncode 0 with
non-empty stripped stdout sets the hostname and clears the error. -/
def hostnamePhase (username : String) (keyRes : CmdResult) (cred : Option Cred)
    (pw : PwOutcome) : HostnamePhaseOut :=
  let err0 : Option (String × String) :=
    if keyRes.returncode != 0 then some (classifyStderr username keyRes.stderr) else none
  let afterPw : CmdResult × Option (String × String) :=
    if keyRes.returncode != 0 then
      match cred with
      | some c =>
        match c.password with
        | some _ =>
          let r := match pw with
            | .completed r => r
            | .timedOut => ⟨1, "", "timeout"⟩
          if r.returncode != 0 then
            (r, some (classifyCombined username r.stderr r.stdout))
          else (r, none)
        | none => (keyRes, err0)
      | none => (keyRes, err0)
    else (keyRes, err0)
  let (finalRes, err1) := afterPw
  if finalRes.returncode == 0 && trimStr finalRes.stdout != "" then
    { final := finalRes, hostname := some (trimStr finalRes.stdout),
      ssh_error := none, ssh_error_type := none }
  else
    { final := finalRes, hostname := none,
      ssh_error := err1.map (·.1), ssh_error_type := err1.map (·.2) }

/-- Embedding of the unique-id loop (device_verification.py lines 337-386):
per command, the key-based run, retried once via sshpass when it failed and
a cached password exists; the first final run with returncode 0 whose
stripped stdout is non-empty, not "NOT_FOUND" and longer than 4 characters
yields the unique id. -/
def uidFromRuns (cred : Option Cred) : List (CmdResult × CmdResult) → Option String
  | [] => none
  | (k, p) :: rest =>
    let r :=
      if k.returncode != 0 then
        match cred with
        | some c => match c.password with
          | some _ => p
          | none => k
        | none => k
      else k
    if r.returncode == 0 then
      let u := trimStr r.stdout
      if isPlausibleUid u then some u
      else uidFromRuns cred rest
    else uidFromRuns cred rest

/-- Hostname component of the match score
(device_verification.py lines 399-410).  `expected_hostname` is the record's
hostname field or, when falsy, the device id; +10 for a case-insensitive
exact match, else +5 when the device id occurs in the probed hostname OR the
probed hostname occurs in the expected hostname. -/
def hostnameMatchScore (hostname : Option String) (device_id : String)
    (conf : DeviceConf) : Nat × List String :=
  let expected_hostname := pyOrS conf.hostname device_id
  match hostname with
  | none => (0, [])
  | some h =>
    if h != "" && expected_hostname != "" then
      if lowerStr h == lowerStr expected_hostname then (10, ["exact_hostname_match"])
      else if pyIn (lowerStr device_id) (lowerStr h)
           || pyIn (lowerStr h) (lowerStr expected_hostname) then
        (5, ["partial_hostname_match"])
      else (0, [])
    else (0, [])

/-- Unique-id component of the match score
(device_verification.py lines 412-423).  `expected_uid` is the record's
unique_id field or, when falsy, its soc_id; +10 for a case-insensitive
exact match, else +5 when either string contains the other. -/
def uidMatchScore (uid : Option String) (conf : DeviceConf) : Nat × List String :=
  let expected_uid := pyOrO conf.unique_id conf.soc_id
  match uid, expected_uid with
  | some u, some e =>
    if u != "" && e != "" then
      if lowerStr u == lowerStr e then (10, ["exact_uid_match"])
      else if pyIn (lowerStr e) (lowerStr u) || pyIn (lowerStr u) (lowerStr e) then
        (5, ["partial_uid_match"])
      else (0, [])
    else (0, [])
  | _, _ => (0, [])

/-- Total score and reasons for one inventory record
(device_verification.py lines 395-423). -/
def deviceMatchScore (hostname uid : Option String) (device_id : String)
    (conf : DeviceConf) : Nat × List String :=
  let (hs, hr) := hostnameMatchScore hostname device_id conf
  let (us, ur) := uidMatchScore uid conf
  (hs + us, hr ++ ur)

/-- Python `device_info.get("friendly_name") or device_info.get("name",
device_id)`: the friendly name if truthy, else the name field when the key
is present (its value even if empty), else the device id. -/
def pyFriendly (conf : DeviceConf) (device_id : String) : String :=
  if truthy conf.friendly_name then conf.friendly_name.getD ""
  else conf.name.getD device_id

/-- Candidate list before sorting (device_verification.py lines 425-435):
one entry per record with positive score, in inventory order. -/
def rawMatches (hostname uid : Option String) (devices : Config) : List MatchEntry :=
  devices.filterMap (fun p =>
    let (score, reasons) := deviceMatchScore hostname uid p.1 p.2
    if score > 0 then
      some { device_id := p.1,
             friendly_name := pyFriendly p.2 p.1,
             match_score := score,
             reasons := reasons,
             configured_ip := p.2.ip }
    else none)

/-- Stable descending insertion: the new entry goes after existing entries of
equal score. -/
def insertDesc (m : MatchEntry) : List MatchEntry → List MatchEntry
  | [] => [m]
  | h :: t => if h.match_score < m.match_score then m :: h :: t else h :: insertDesc m t

/-- Embedding of `matches.sort(key=lambda x: x["match_score"], reverse=True)`
(device_verification.py line 438): a stable sort descending by score. -/
def sortMatchesDesc (l : List MatchEntry) : List MatchEntry :=
  l.foldl (fun acc m => insertDesc m acc) []

/-- Decidable check that a candidate list is sorted descending by score. -/
def sortedDescBool : List MatchEntry → Bool
  | [] => true
  | [_] => true
  | a :: b :: t => b.match_score ≤ a.match_score && sortedDescBool (b :: t)

/-- Result record of `verify_device_by_ip`
(device_verification.py lines 216-226). -/
structure IdentifyResult where
  ip : String
  device_found : Bool
  device_id : Option String
  friendly_name : Option String
  hostname : Option String
  unique_id : Option String
  matches_list : List MatchEntry
  ssh_error : Option String
  ssh_error_type : Option String
deriving Repr, DecidableEq

/-- Matching-and-acceptance tail of `verify_device_by_ip`
(device_verification.py lines 388-446): build candidates, sort descending,
accept the top one iff its score is at least 5. -/
def resolveMatches (ip : String) (hostname uid : Option String) (devices : Config)
    (ssh_error ssh_error_type : Option String) : IdentifyResult :=
  let sorted := sortMatchesDesc (rawMatches hostname uid devices)
  let (found, did, fname) :=
    match sorted with
    | [] => (false, none, none)
    | best :: _ =>
      if best.match_score ≥ 5 then (true, some best.device_id, some best.friendly_name)
      else (false, none, none)
  { ip := ip, device_found := found, device_id := did, friendly_name := fname,
    hostname := hostname, unique_id := uid, matches_list := sorted,
    ssh_error := ssh_error, ssh_error_type := ssh_error_type }

/-- Embedding of `verify_device_by_ip` (device_verification.py lines
201-471) on explicit probe outcomes: hostname phase (with credential
fallback and error classification), unique-id loop, then matching.  The
final `ssh_error` fields are attached only when an error survived the
hostname phase (lines 466-469; the uid loop never touches them). -/
def verify_device_by_ip (ip username : String) (keyRes : CmdResult)
    (cred : Option Cred) (pw : PwOutcome) (uidRuns : List (CmdResult × CmdResult))
    (devices : Config) : IdentifyResult :=
  let hp := hostnamePhase username keyRes cred pw
  let uid := uidFromRuns cred uidRuns
  resolveMatches ip hp.hostname uid devices hp.ssh_error hp.ssh_error_type

/-! ## Identity verification by device reference (device_verification.py)

`verify_device_identity` resolves a device reference, loads its inventory
record and probes the endpoint through `ssh_to_device`; each ssh result is
passed in as a `SshRes`. -/

/-- Outcome of one `ssh_to_device` call as consumed by
`verify_device_identity`: the success flag and captured stdout. -/
structure SshRes where
  success : Bool
  stdout : String
deriving Repr, DecidableEq

/-- Result record of `verify_device_identity`
(device_verification.py lines 123-137); keys missing from the early-error
dictionaries read as `none` / `false`. -/
structure Verification where
  success : Bool
  error : Option String
  device_id : Option String
  friendly_name : Option String
  ip_checked : Option String
  configured_ip : Option String
  ip_matches : Bool
  expected_hostname : Option String
  expected_unique_id : Option String
  actual_hostname : Option String
  actual_unique_id : Option String
  hostname_matches : Bool
  unique_id_matches : Bool
  verified : Bool
  suggestion : Option String
deriving Repr, DecidableEq

/-- An early-error return such as
`{"success": False, "error": "Device ... not found in configuration"}`. -/
def errorVerification (msg : String) : Verification :=
  { success := false, error := some msg, device_id := none, friendly_name := none,
    ip_checked := none, configured_ip := none, ip_matches := false,
    expected_hostname := none, expected_unique_id := none, actual_hostname := none,
    actual_unique_id := none, hostname_matches := false, unique_id_matches := false,
    verified := false, suggestion := none }

/-- The unique-id loop of `verify_device_identity`
(device_verification.py lines 157-180): the first successful command whose
stripped stdout is plausible (non-empty, not "NOT_FOUND", longer than 4)
fixes `actual_unique_id` and decides `unique_id_matches`; with no expected
unique id configured, any plausible id counts as a match. -/
def uidIdentLoop (expected_uid : Option String) : List SshRes → Option String × Bool
  | [] => (none, false)
  | r :: rest =>
    if r.success then
      let actual := trimStr r.stdout
      if isPlausibleUid actual then
        let m :=
          if truthy expected_uid then
            lowerStr actual == lowerStr (expected_uid.getD "")
            || pyIn (lowerStr (expected_uid.getD "")) (lowerStr actual)
            || pyIn (lowerStr actual) (lowerStr (expected_uid.getD ""))
          else true
        (some actual, m)
      else uidIdentLoop expected_uid rest
    else uidIdentLoop expected_uid rest

/-- Embedding of `verify_device_identity` (device_verification.py lines
75-198) after the reference has been resolved to `device_id` with inventory
record `device`: hostname check (exact case-insensitive, or the device id
inside the probed hostname, or the probed hostname inside the expected
one), unique-id loop, `verified` when either signal matches, and an
IP-change suggestion when verified at a different address. -/
def verify_device_identity (device_id : String) (device : DeviceConf)
    (ipParam : Option String) (hres : SshRes) (uidRuns : List SshRes) : Verification :=
  let ipUsed := pyOrO ipParam device.ip
  if !truthy ipUsed then errorVerification "No IP address provided or configured"
  else
    let ip := ipUsed.getD ""
    let expected_hostname := pyOrS device.hostname device_id
    let expected_unique_id := pyOrO device.unique_id device.soc_id
    let expected_friendly_name := pyFriendly device device_id
    let (actual_hostname, hostname_matches) :=
      if hres.success then
        let actual := trimStr hres.stdout
        let hm :=
          if expected_hostname != "" then
            lowerStr actual == lowerStr expected_hostname
            || pyIn (lowerStr device_id) (lowerStr actual)
            || pyIn (lowerStr actual) (lowerStr expected_hostname)
          else pyIn (lowerStr device_id) (lowerStr actual)
        (some actual, hm)
      else (none, false)
    let (actual_unique_id, unique_id_matches) := uidIdentLoop expected_unique_id uidRuns
    let verified := hostname_matches || unique_id_matches
    let ip_matches := device.ip == some ip
    { success := true, error := none, device_id := some device_id,
      friendly_name := some expected_friendly_name, ip_checked := some ip,
      configured_ip := device.ip, ip_matches := ip_matches,
      expected_hostname := some expected_hostname,
      expected_unique_id := expected_unique_id,
      actual_hostname := actual_hostname, actual_unique_id := actual_unique_id,
      hostname_matches := hostname_matches, unique_id_matches := unique_id_matches,
      verified := verified,
      suggestion := if verified && !ip_matches then
          some ("Device verified but IP changed. Consider updating config: "
            ++ ip ++ " -> " ++ (device.ip.getD "None"))
        else none }

/-- Result record of `update_device_ip_if_changed`
(device_verification.py lines 474-534). -/
structure UpdateResult where
  success : Bool
  error : Option String
  message : Option String
  ip : Option String
  device_id : Option String
  friendly_name : Option String
  old_ip : Option String
  new_ip : Option String
  verification : Option Verification
deriving Repr, DecidableEq

/-- Rewrite exactly one record's `ip` field (the config-file update at
device_verification.py line 513). -/
def confSetIp (c : Config) (device_id : String) (ip : String) : Config :=
  c.map (fun p => if p.1 == device_id then (p.1, { p.2 with ip := some ip }) else p)

/-- Embedding of `update_device_ip_if_changed` (device_verification.py lines
474-534).  `resolved` is the answer of `resolve_device_identifier` for the
supplied reference; ssh outcomes feed the inner `verify_device_identity`;
`writeOk` tells whether the config-file write succeeds (its failure is
modelled as leaving the stored config unchanged).  Returns the (possibly
updated) config and the result record.  The verification step
(device_verification.py line 488, including the resolve / lookup early
errors of lines 90-104) is split out first. -/
def verificationFor (config : Config) (resolved : Option String) (new_ip : String)
    (hres : SshRes) (uidRuns : List SshRes) : Verification :=
  match resolved with
  | none => errorVerification "Device not found in configuration"
  | some did =>
    match confGet config did with
    | none => errorVerification ("Device '" ++ did ++ "' not found in configuration")
    | some dev => verify_device_identity did dev (some new_ip) hres uidRuns

/-- Embedding of `update_device_ip_if_changed` continued: dispatch on the
verification outcome. -/
def update_device_ip_if_changed (config : Config) (resolved : Option String)
    (new_ip : String) (hres : SshRes) (uidRuns : List SshRes) (writeOk : Bool) :
    Config × UpdateResult :=
  let verification := verificationFor config resolved new_ip hres uidRuns
  let noResult : UpdateResult :=
    { success := false, error := none, message := none, ip := none, device_id := none,
      friendly_name := none, old_ip := none, new_ip := none, verification := none }
  if !verification.verified then
    (config, { noResult with
      error := some "Device identity verification failed. IP not updated.",
      verification := some verification })
  else
    match verification.device_id with
    | none =>
      (config, { noResult with error := some "Device 'None' not found in configuration" })
    | some did =>
      match confGet config did with
      | none =>
        (config, { noResult with
          error := some ("Device '" ++ did ++ "' not found in configuration") })
      | some dev =>
        let old_ip := dev.ip
        if old_ip == some new_ip then
          (config,
           { noResult with
             success := true
             message := some "IP address unchanged"
             ip := some new_ip })
        else if writeOk then
          (confSetIp config did new_ip,
           { noResult with
             success := true
             message := some ("Device IP updated: " ++ old_ip.getD "None"
               ++ " -> " ++ new_ip)
             device_id := some did
             friendly_name := verification.friendly_name
             old_ip := old_ip
             new_ip := some new_ip
             verification := some verification })
        else
          (config, { noResult with
            error := some "Failed to update config file",
            verification := some verification })

/-! ## File transfer (file_transfer.py)

`copy_file_to_device` (lines 138-168) and the per-file closure of
`copy_files_to_device_parallel` (lines 696-717) build the same scp command:
multiplexed over the pool's master when one is live, direct otherwise.
-/

/-- A pooled master process as observed by the caller: `poll()` is `none`
while the process is still running, `some code` once it exited. -/
structure Proc where
  poll : Option Int
deriving Repr, DecidableEq

/-- Python `master and master.poll() is None`: a live multiplexed master. -/
def masterAlive : Option Proc → Bool
  | some m => m.poll == none
  | none => false

/-- The control path `/tmp/ssh_mcp_{device_id}_{ip.replace('.', '_')}`
(file_transfer.py lines 140 and 683). -/
def controlPathFor (device_id ip : String) : String :=
  "/tmp/ssh_mcp_" ++ device_id ++ "_"
    ++ ⟨ip.data.map (fun c => if c == '.' then '_' else c)⟩

/-- The scp command built by `copy_file_to_device` (lines 144-165) and by
`_copy_single_file` (lines 700-713): ControlPath over a live master,
otherwise the direct-connection options; then optional `-p`, compression,
source and destination. -/
def scpCommand (master : Option Proc) (control_path : String)
    (preserve : Bool) (local_path username ip remote_path : String) : List String :=
  (["scp"]
    ++ (if masterAlive master then ["-o", "ControlPath=" ++ control_path]
        else ["-o", "StrictHostKeyChecking=no", "-o", "BatchMode=yes"]))
    ++ (if preserve then ["-p"] else [])
    ++ ["-C", local_path, username ++ "@" ++ ip ++ ":" ++ remote_path]

/-- One transfer attempt: build the command, execute it (`run` yields the
subprocess outcome for a given command line), succeed iff scp returned 0
(file_transfer.py lines 167-201 / 715-724). -/
def copy_file_transfer (master : Option Proc) (control_path : String)
    (preserve : Bool) (local_path username ip remote_path : String)
    (run : List String → CmdResult) : Bool × List String :=
  let cmd := scpCommand master control_path preserve local_path username ip remote_path
  ((run cmd).returncode == 0, cmd)

/-! ## Atomic cache persistence (device_cache.py, save_device_cache)

The filesystem is reduced to the two files the function touches: the cache
file and its temp file, each `none` (absent) or `some contents`.  The body
of `save_device_cache` (lines 81-102) is a straight-line sequence of
filesystem steps; a crash is an arbitrary prefix of that sequence.
-/

/-- Minimal filesystem state: contents of the cache file and the temp file. -/
structure FS where
  cacheFile : Option String
  tmpFile : Option String
deriving Repr, DecidableEq

/-- The primitive filesystem steps `save_device_cache` performs. -/
inductive FsOp where
  | openTruncTmp
  | writeTmp (s : String)
  | fsyncTmp
  | renameTmpOverCache
deriving Repr, DecidableEq

/-- Effect of one step: `open(temp_file, 'w')` truncates the temp file,
writes append to it, fsync orders it to stable storage (contents unchanged),
`os.replace` atomically moves the temp file over the cache file. -/
def applyOp (fs : FS) : FsOp → FS
  | .openTruncTmp => { fs with tmpFile := some "" }
  | .writeTmp s => { fs with tmpFile := some (fs.tmpFile.getD "" ++ s) }
  | .fsyncTmp => fs
  | .renameTmpOverCache => { cacheFile := fs.tmpFile, tmpFile := none }

/-- Run a sequence of steps. -/
def runOps (fs : FS) (ops : List FsOp) : FS := ops.foldl applyOp fs

/-- Concatenation of the chunks the serializer emits. -/
def joinChunks (chunks : List String) : String := chunks.foldl (· ++ ·) ""

/-- The serialized cache text (stands for `json.dump(cache, f, indent=2)`;
only full-content equality matters to the claims). -/
def serializeCache (c : Cache) : String := reprStr c

/-- File names (device_cache.py lines 24 and 83): the temp file lives in the
cache directory next to the cache file. -/
def DEVICE_CACHE_FILE_NAME : String := "device_cache.json"

/-- Temp file name `f"{DEVICE_CACHE_FILE.name}.tmp"`. -/
def TEMP_FILE_NAME : String := DEVICE_CACHE_FILE_NAME ++ ".tmp"

/-- The step sequence of `save_device_cache`'s write path (lines 86-102):
open-truncate the temp file, write the serialized cache (in any chunking the
runtime chooses), fsync, atomically rename over the cache file. -/
def save_device_cache_script (chunks : List String) : List FsOp :=
  FsOp.openTruncTmp :: (chunks.map FsOp.writeTmp ++ [FsOp.fsyncTmp, FsOp.renameTmpOverCache])

/-! ## Concrete sample data and comparison definitions -/

/-- A concrete cache entry written long ago (identity established). -/
def sampleEntry : CacheEntry :=
  { emptyEntry with
    hostname := some "sentai-01"
    device_id := some "sentai-01"
    device_found := true
    cached_at := 100
    ip := "10.0.0.5" }

/-- A one-entry stored cache holding `sampleEntry`. -/
def sampleCache : Cache := [("10.0.0.5", sampleEntry)]

/-- The full-shape merge input that carries only an error, as built by
`identify_and_cache_device` for a failed probe: all identity keys present
with None values. -/
def errorOnlyInfo : DeviceInfoIn :=
  { hostname := none, unique_id := none, device_id := none, friendly_name := none,
    device_found := false, matches_list := [], firmware := none,
    ssh_error := some "SSH timeout (root)", ssh_error_type := some "timeout" }

/-- The password held by the credential store's answer, if any. -/
def credPassword : Option Cred → Option String
  | some c => c.password
  | none => none

/-- The sentai-01 inventory record of the spec scenario. -/
def sentaiConf : DeviceConf :=
  { hostname := some "sentai-01", unique_id := some "ABC123", soc_id := none,
    friendly_name := some "Sentai 1", name := none, ip := some "10.0.0.4",
    ssh_user := some "root" }

/-- A one-device inventory holding `sentaiConf`. -/
def sampleDevices : Config := [("sentai-01", sentaiConf)]

/-- An inventory record with no expected unique id configured (neither
unique_id nor soc_id). -/
def noUidConf : DeviceConf :=
  { hostname := some "sentai-01", unique_id := none, soc_id := none,
    friendly_name := none, name := none, ip := some "10.0.0.5",
    ssh_user := some "root" }

/-- The hostname score rule as the claim words it (symmetric containment of
the two hostname strings), kept for comparison with the source rule. -/
def claimHostnameScore (hostname expected : String) : Nat :=
  if lowerStr hostname == lowerStr expected then 10
  else if pyIn (lowerStr hostname) (lowerStr expected)
      || pyIn (lowerStr expected) (lowerStr hostname) then 5
  else 0

/-- An inventory record whose hostname field differs from its device id. -/
def boxConf : DeviceConf :=
  { hostname := some "box", unique_id := none, soc_id := none,
    friendly_name := none, name := none, ip := none, ssh_user := none }

/-- The corrected per-record score: +10 for a case-insensitive exact
hostname match, else +5 when the device id occurs in the probed hostname or
the probed hostname occurs in the expected hostname; +10 for an exact
unique-id match, else +5 when either unique-id string contains the other. -/
def amendedScore (hostname uid : Option String) (device_id : String)
    (conf : DeviceConf) : Nat :=
  (match hostname with
   | none => 0
   | some h =>
     let expected := pyOrS conf.hostname device_id
     if h != "" && expected != "" then
       if lowerStr h == lowerStr expected then 10
       else if pyIn (lowerStr device_id) (lowerStr h)
           || pyIn (lowerStr h) (lowerStr expected) then 5
       else 0
     else 0)
  + (match uid, pyOrO conf.unique_id conf.soc_id with
     | some x, some e =>
       if x != "" && e != "" then
         if lowerStr x == lowerStr e then 10
         else if pyIn (lowerStr e) (lowerStr x) || pyIn (lowerStr x) (lowerStr e) then 5
         else 0
       else 0
     | _, _ => 0)

/-! ## Supporting lemmas -/

theorem mem_insertDesc (m x : MatchEntry) (l : List MatchEntry) :
    x ∈ insertDesc m l ↔ x = m ∨ x ∈ l := by
  induction l with
  | nil => simp [insertDesc]
  | cons h t ih =>
    by_cases hc : h.match_score < m.match_score
    · simp [insertDesc, hc]
    · simp [insertDesc, hc, ih]
      tauto

theorem mem_sortMatchesDesc_aux (l : List MatchEntry) :
    ∀ acc x, x ∈ l.foldl (fun acc m => insertDesc m acc) acc ↔ x ∈ l ∨ x ∈ acc := by
  induction l with
  | nil => simp
  | cons h t ih =>
    intro acc x
    simp only [List.foldl_cons, ih, mem_insertDesc, List.mem_cons]
    tauto

theorem mem_sortMatchesDesc (x : MatchEntry) (l : List MatchEntry) :
    x ∈ sortMatchesDesc l ↔ x ∈ l := by
  simp [sortMatchesDesc, mem_sortMatchesDesc_aux]

theorem sortedDescBool_cons (a : MatchEntry) (l : List MatchEntry) :
    sortedDescBool (a :: l) = true ↔
      (∀ b, l.head? = some b → b.match_score ≤ a.match_score) ∧ sortedDescBool l = true := by
  cases l <;> simp [sortedDescBool]

theorem insertDesc_head (m : MatchEntry) (l : List MatchEntry) :
    (insertDesc m l).head? = some m ∨ (insertDesc m l).head? = l.head? := by
  cases l with
  | nil => left; rfl
  | cons h t =>
    by_cases hc : h.match_score < m.match_score
    · left; simp [insertDesc, hc]
    · right; simp [insertDesc, hc]

theorem insertDesc_sorted (m : MatchEntry) :
    ∀ l, sortedDescBool l = true → sortedDescBool (insertDesc m l) = true := by
  intro l
  induction l with
  | nil => intro _; simp [insertDesc, sortedDescBool]
  | cons h t ih =>
    intro hs
    rw [sortedDescBool_cons] at hs
    by_cases hc : h.match_score < m.match_score
    · have : insertDesc m (h :: t) = m :: h :: t := by simp [insertDesc, hc]
      rw [this, sortedDescBool_cons]
      refine ⟨?_, by rw [sortedDescBool_cons]; exact hs⟩
      intro b hb
      simp only [List.head?_cons, Option.some.injEq] at hb
      subst hb
      exact Nat.le_of_lt hc
    · have : insertDesc m (h :: t) = h :: insertDesc m t := by simp [insertDesc, hc]
      rw [this, sortedDescBool_cons]
      refine ⟨?_, ih hs.2⟩
      intro b hb
      rcases insertDesc_head m t with hh | hh
      · rw [hh] at hb
        simp only [Option.some.injEq] at hb
        subst hb
        exact Nat.le_of_not_lt hc
      · rw [hh] at hb
        exact hs.1 b hb

theorem sortMatchesDesc_sorted_aux (l : List MatchEntry) :
    ∀ acc, sortedDescBool acc = true →
      sortedDescBool (l.foldl (fun acc m => insertDesc m acc) acc) = true := by
  induction l with
  | nil => intro acc h; simpa
  | cons h t ih =>
    intro acc hacc
    exact ih (insertDesc h acc) (insertDesc_sorted h acc hacc)

theorem sortMatchesDesc_sorted (l : List MatchEntry) :
    sortedDescBool (sortMatchesDesc l) = true :=
  sortMatchesDesc_sorted_aux l [] rfl

theorem runOps_append (fs : FS) (a b : List FsOp) :
    runOps fs (a ++ b) = runOps (runOps fs a) b := by
  simp [runOps]

theorem cacheFile_unchanged (ops : List FsOp) (hno : FsOp.renameTmpOverCache ∉ ops) :
    ∀ fs : FS, (runOps fs ops).cacheFile = fs.cacheFile := by
  induction ops with
  | nil => intro fs; rfl
  | cons op t ih =>
    intro fs
    have hop : op ≠ FsOp.renameTmpOverCache := fun h => hno (h ▸ List.mem_cons_self op t)
    have ht : FsOp.renameTmpOverCache ∉ t := fun h => hno (List.mem_cons_of_mem op h)
    have step : (applyOp fs op).cacheFile = fs.cacheFile := by
      cases op with
      | openTruncTmp => rfl
      | writeTmp s => rfl
      | fsyncTmp => rfl
      | renameTmpOverCache => exact absurd rfl hop
    calc (runOps fs (op :: t)).cacheFile
        = (runOps (applyOp fs op) t).cacheFile := rfl
      _ = (applyOp fs op).cacheFile := ih ht (applyOp fs op)
      _ = fs.cacheFile := step

theorem runOps_writeChunks (chunks : List String) :
    ∀ (cf : Option String) (t : String),
      runOps ⟨cf, some t⟩ (chunks.map FsOp.writeTmp)
        = ⟨cf, some (chunks.foldl (· ++ ·) t)⟩ := by
  induction chunks with
  | nil => intro cf t; rfl
  | cons c rest ih =>
    intro cf t
    calc runOps ⟨cf, some t⟩ ((c :: rest).map FsOp.writeTmp)
        = runOps ⟨cf, some (t ++ c)⟩ (rest.map FsOp.writeTmp) := rfl
      _ = ⟨cf, some (rest.foldl (· ++ ·) (t ++ c))⟩ := ih cf (t ++ c)

theorem prefix_snoc_cases {α : Type} (p l : List α) (x : α) (h : p <+: l ++ [x]) :
    p = l ++ [x] ∨ p <+: l := by
  rcases h with ⟨t, ht⟩
  cases t using List.reverseRecOn with
  | nil => left; simpa using ht
  | append_singleton t2 y =>
    right
    have h1 : (p ++ t2) ++ [y] = l ++ [x] := by
      rw [List.append_assoc]
      exact ht
    have h2 := List.append_inj' h1 (by simp)
    exact ⟨t2, h2.1⟩

theorem rename_not_mem_init (chunks : List String) :
    FsOp.renameTmpOverCache ∉
      FsOp.openTruncTmp :: (chunks.map FsOp.writeTmp ++ [FsOp.fsyncTmp]) := by
  intro h
  rcases List.mem_cons.mp h with h1 | h1
  · exact FsOp.noConfusion h1
  · rcases List.mem_append.mp h1 with h2 | h2
    · rcases List.mem_map.mp h2 with ⟨s, _, hs⟩
      exact FsOp.noConfusion hs
    · rcases List.mem_singleton.mp h2 with h3
      exact FsOp.noConfusion h3

theorem joinChunks_single (s : String) : joinChunks [s] = s := by
  cases s with
  | mk d => rfl

theorem save_script_run (fs : FS) (chunks : List String) :
    runOps fs (save_device_cache_script chunks) = ⟨some (joinChunks chunks), none⟩ := by
  have h0 : runOps fs (save_device_cache_script chunks)
      = runOps (⟨fs.cacheFile, some ""⟩ : FS)
          (chunks.map FsOp.writeTmp ++ [FsOp.fsyncTmp, FsOp.renameTmpOverCache]) := rfl
  rw [h0, runOps_append, runOps_writeChunks]
  rfl

/-! ## Claim theorems -/

/-- C5: save_device_cache writes the serialized cache to the co-located temp
file, fsyncs it, then atomically renames it over the cache file; at every
crash point (prefix of the step sequence) the cache file holds either the
previous content unchanged or exactly the full new serialization — never a
truncated or half-written value — and after the final rename it holds
exactly the new content. -/
theorem save_device_cache_atomic (fs : FS) (chunks : List String) (c : Cache)
    (hser : joinChunks chunks = serializeCache c) :
    (∀ p, p <+: save_device_cache_script chunks →
      (runOps fs p).cacheFile = fs.cacheFile
        ∨ (runOps fs p).cacheFile = some (serializeCache c))
    ∧ (runOps fs (save_device_cache_script chunks)).cacheFile = some (serializeCache c)
    ∧ TEMP_FILE_NAME = DEVICE_CACHE_FILE_NAME ++ ".tmp" := by
  have hfull : (runOps fs (save_device_cache_script chunks)).cacheFile
      = some (serializeCache c) := by
    rw [save_script_run, ← hser]
  refine ⟨?_, hfull, rfl⟩
  intro p hp
  have hscript : save_device_cache_script chunks
      = (FsOp.openTruncTmp :: (chunks.map FsOp.writeTmp ++ [FsOp.fsyncTmp]))
          ++ [FsOp.renameTmpOverCache] := by
    simp [save_device_cache_script]
  rw [hscript] at hp
  rcases prefix_snoc_cases _ _ _ hp with he | hpre
  · right
    rw [he, ← hscript]
    exact hfull
  · left
    exact cacheFile_unchanged p
      (fun hm => rename_not_mem_init chunks (hpre.subset hm)) fs

/-- Witness for C5 at a concrete previous state, cache value and chunking. -/
theorem save_device_cache_atomic_witness :
    (∀ p, p <+: save_device_cache_script [serializeCache []] →
      (runOps ⟨some "old", none⟩ p).cacheFile = (⟨some "old", none⟩ : FS).cacheFile
        ∨ (runOps ⟨some "old", none⟩ p).cacheFile = some (serializeCache []))
    ∧ (runOps ⟨some "old", none⟩ (save_device_cache_script [serializeCache []])).cacheFile
        = some (serializeCache [])
    ∧ TEMP_FILE_NAME = DEVICE_CACHE_FILE_NAME ++ ".tmp" :=
  save_device_cache_atomic ⟨some "old", none⟩ [serializeCache []] []
    (joinChunks_single _)

/-- C4: the cache read returns None for an absent entry; for a present entry
older than the 24-hour TTL it returns None while the record remains in the
stored cache; and it returns a present, non-expired entry as stored. -/
theorem get_cached_device_info_ttl (c : Cache) (now : Nat) (ip : String) :
    (cacheGet c ip = none → get_cached_device_info c now ip = none)
    ∧ (∀ e, cacheGet c ip = some e →
        (now - e.cached_at > CACHE_EXPIRY_SECONDS →
          get_cached_device_info c now ip = none ∧ cacheGet c ip = some e)
        ∧ (¬(now - e.cached_at > CACHE_EXPIRY_SECONDS) →
          get_cached_device_info c now ip = some e)) := by
  refine ⟨?_, ?_⟩
  · intro h
    simp [get_cached_device_info, h]
  · intro e he
    refine ⟨fun hgt => ⟨?_, he⟩, fun hle => ?_⟩
    · simp [get_cached_device_info, he, hgt]
    · simp [get_cached_device_info, he, hle]

/-- Witness for C4: a day after `cached_at`, the read yields None while the
record is still present in the stored cache. -/
theorem get_cached_device_info_ttl_witness :
    get_cached_device_info sampleCache 1000000 "10.0.0.5" = none
      ∧ cacheGet sampleCache "10.0.0.5" = some sampleEntry :=
  ((get_cached_device_info_ttl sampleCache 1000000 "10.0.0.5").2 sampleEntry
    (by decide)).1 (by decide)

/-- C1 counterexample: merging an error-only update into an entry whose
identity was established (hostname and resolved device id set) erases the
resolved device id (and resets device_found), contrary to the claim that
both established identity fields are left unchanged; only the hostname is
preserved. -/
theorem cache_merge_erases_resolved_device_id :
    sampleEntry.device_id = some "sentai-01"
    ∧ (cache_device_info 2000 "10.0.0.5" errorOnlyInfo (some sampleEntry)).device_id = none
    ∧ (cache_device_info 2000 "10.0.0.5" errorOnlyInfo (some sampleEntry)).hostname
        = some "sentai-01"
    ∧ (cache_device_info 2000 "10.0.0.5" errorOnlyInfo (some sampleEntry)).device_found
        = false := by
  decide

/-- C1 (amended): once an entry has a non-empty hostname, a later merge that
carries no hostname preserves the hostname, and (the entry still having a
hostname) the stored error fields are cleared rather than updated; the
resolved device id and the device_found flag, however, are always
overwritten by the incoming values (erased by an error-only merge); and a
merge that itself carries a hostname establishes it and clears any
previously stored error fields. -/
theorem cache_merge_nonregression_amended (now : Nat) (ip : String)
    (info : DeviceInfoIn) (e : CacheEntry) :
    (truthy e.hostname = true →
      (truthy info.hostname = false →
        (cache_device_info now ip info (some e)).hostname = e.hostname)
      ∧ (cache_device_info now ip info (some e)).ssh_error = none
      ∧ (cache_device_info now ip info (some e)).ssh_error_type = none)
    ∧ (cache_device_info now ip info (some e)).device_id = info.device_id
    ∧ (cache_device_info now ip info (some e)).device_found = info.device_found
    ∧ (truthy info.hostname = true →
        (cache_device_info now ip info (some e)).hostname = info.hostname
        ∧ (cache_device_info now ip info (some e)).ssh_error = none
        ∧ (cache_device_info now ip info (some e)).ssh_error_type = none) := by
  cases h1 : truthy e.hostname <;> cases h2 : truthy info.hostname <;>
    cases hdf : info.device_found <;>
      simp [cache_device_info, h1, h2, hdf]

/-- Witness for the amended C1 at the concrete established entry and
error-only merge input. -/
theorem cache_merge_nonregression_amended_witness :
    (cache_device_info 2000 "10.0.0.5" errorOnlyInfo (some sampleEntry)).hostname
        = sampleEntry.hostname
    ∧ (cache_device_info 2000 "10.0.0.5" errorOnlyInfo (some sampleEntry)).ssh_error
        = none
    ∧ (cache_device_info 2000 "10.0.0.5" errorOnlyInfo (some sampleEntry)).device_id
        = errorOnlyInfo.device_id :=
  ⟨((cache_merge_nonregression_amended 2000 "10.0.0.5" errorOnlyInfo sampleEntry).1
      (by decide)).1 (by decide),
   ((cache_merge_nonregression_amended 2000 "10.0.0.5" errorOnlyInfo sampleEntry).1
      (by decide)).2.1,
   (cache_merge_nonregression_amended 2000 "10.0.0.5" errorOnlyInfo sampleEntry).2.1⟩

/-- C9: when no live master exists (pool returned nothing, or a process that
has exited) the transfer still builds and runs a direct, non-multiplexed scp
command — identical to the no-master command; when a live master exists the
command carries its ControlPath option; and in every case the operation's
success flag equals the scp run's own success, so multiplexing never decides
the outcome. -/
theorem file_transfer_multiplex_fallback (master : Option Proc) (cp : String)
    (preserve : Bool) (lp un ip rp : String) (run : List String → CmdResult) :
    (masterAlive master = false →
      scpCommand master cp preserve lp un ip rp = scpCommand none cp preserve lp un ip rp
      ∧ scpCommand master cp preserve lp un ip rp
          = ["scp", "-o", "StrictHostKeyChecking=no", "-o", "BatchMode=yes"]
              ++ (if preserve then ["-p"] else [])
              ++ ["-C", lp, un ++ "@" ++ ip ++ ":" ++ rp])
    ∧ (masterAlive master = true →
        ("ControlPath=" ++ cp) ∈ scpCommand master cp preserve lp un ip rp)
    ∧ (copy_file_transfer master cp preserve lp un ip rp run).1
        = ((run (scpCommand master cp preserve lp un ip rp)).returncode == 0) := by
  refine ⟨?_, ?_, rfl⟩
  · intro h
    constructor
    · simp [scpCommand, h, show masterAlive none = false from rfl]
    · simp [scpCommand, h]
  · intro h
    simp [scpCommand, h]

/-- Witness for C9: a dead master (exit code 1) yields the same command as
no master at all. -/
theorem file_transfer_multiplex_fallback_witness :
    scpCommand (some ⟨some 1⟩) "/tmp/ssh_mcp_x" false "/tmp/f" "root" "10.0.0.5" "/data/f"
      = scpCommand none "/tmp/ssh_mcp_x" false "/tmp/f" "root" "10.0.0.5" "/data/f" :=
  ((file_transfer_multiplex_fallback (some ⟨some 1⟩) "/tmp/ssh_mcp_x" false "/tmp/f"
      "root" "10.0.0.5" "/data/f" (fun _ => ⟨0, "", ""⟩)).1 (by decide)).1

/-- C3 counterexample: with key authentication failing and no credential
cached for the IP, the probe makes exactly the key attempt — no default
device-class credential is ever attempted, contrary to the claim. -/
theorem probe_no_default_credential_attempt :
    probeAttempts ⟨255, "", "Permission denied, please try again."⟩ none
      = [Attempt.keyAuth]
    ∧ Attempt.defaultCred ∉
        probeAttempts ⟨255, "", "Permission denied, please try again."⟩ none := by
  decide

/-- C3 (amended): the probe attempts key authentication first; on success no
further attempt is made; on failure the cached password credential — and
only it — is attempted when one exists; when the store holds nothing for the
IP no further attempt is made; a default credential is never attempted by
this code path. -/
theorem credential_chain_amended (keyRes : CmdResult) (cred : Option Cred) :
    (probeAttempts keyRes cred).head? = some Attempt.keyAuth
    ∧ (keyRes.returncode = 0 → probeAttempts keyRes cred = [Attempt.keyAuth])
    ∧ (keyRes.returncode ≠ 0 → ∀ c p, cred = some c → c.password = some p →
        probeAttempts keyRes cred = [Attempt.keyAuth, Attempt.passwordAuth p])
    ∧ (keyRes.returncode ≠ 0 → cred = none → probeAttempts keyRes cred = [Attempt.keyAuth])
    ∧ Attempt.defaultCred ∉ probeAttempts keyRes cred := by
  refine ⟨?_, ?_, ?_, ?_, ?_⟩
  · simp [probeAttempts]
  · intro h
    simp [probeAttempts, h]
  · intro h c p hc hp
    subst hc
    simp [probeAttempts, h, hp]
  · intro h hc
    subst hc
    simp [probeAttempts, h]
  · intro hmem
    simp only [probeAttempts, List.mem_cons] at hmem
    rcases hmem with h1 | h1
    · exact Attempt.noConfusion h1
    · by_cases hk : keyRes.returncode != 0
      · rw [if_pos hk] at h1
        cases cred with
        | none => simp at h1
        | some c =>
          cases hp : c.password with
          | none => simp [hp] at h1
          | some p => simp [hp] at h1
      · rw [if_neg hk] at h1
        simp at h1

/-- Witness for the amended C3: key failure with a cached password yields
exactly the key attempt followed by the cached-password attempt. -/
theorem credential_chain_amended_witness :
    probeAttempts ⟨255, "", "Permission denied, please try again."⟩
        (some ⟨"root", some "fio"⟩)
      = [Attempt.keyAuth, Attempt.passwordAuth "fio"] :=
  (credential_chain_amended ⟨255, "", "Permission denied, please try again."⟩
      (some ⟨"root", some "fio"⟩)).2.2.1 (by decide) ⟨"root", some "fio"⟩ "fio" rfl rfl

theorem classifyStderr_tag (username e : String) :
    (classifyStderr username e).2 = "timeout"
    ∨ (classifyStderr username e).2 = "connection_refused"
    ∨ (classifyStderr username e).2 = "auth_failed"
    ∨ (classifyStderr username e).2 = "connection_error" := by
  simp only [classifyStderr]
  split
  · simp
  · split
    · simp
    · split <;> simp

theorem classifyCombined_tag (username e o : String) :
    (classifyCombined username e o).2 = "timeout"
    ∨ (classifyCombined username e o).2 = "connection_refused"
    ∨ (classifyCombined username e o).2 = "auth_failed"
    ∨ (classifyCombined username e o).2 = "connection_error" := by
  simp only [classifyCombined]
  split
  · simp
  · split
    · simp
    · split <;> simp

theorem hostnamePhase_type_cases (username : String) (keyRes : CmdResult)
    (cred : Option Cred) (pw : PwOutcome) :
    (hostnamePhase username keyRes cred pw).ssh_error_type = none
    ∨ (hostnamePhase username keyRes cred pw).ssh_error_type
        = some (classifyStderr username keyRes.stderr).2
    ∨ ∃ rr : CmdResult, (hostnamePhase username keyRes cred pw).ssh_error_type
        = some (classifyCombined username rr.stderr rr.stdout).2 := by
  by_cases hk : keyRes.returncode = 0
  · left
    simp only [hostnamePhase, hk]
    split <;> (try split) <;> simp_all
  · cases cred with
    | none =>
      right; left
      simp [hostnamePhase, hk]
    | some c =>
      cases hp : c.password with
      | none =>
        right; left
        simp [hostnamePhase, hk, hp]
      | some p =>
        cases pw with
        | timedOut =>
          right; right
          exact ⟨⟨1, "", "timeout"⟩, by simp [hostnamePhase, hk, hp]⟩
        | completed rr =>
          by_cases hr : rr.returncode = 0
          · left
            simp only [hostnamePhase, hk, hp, hr]
            split <;> (try split) <;> (try split) <;> simp_all
          · right; right
            exact ⟨rr, by simp [hostnamePhase, hk, hp, hr]⟩

/-- C7 counterexample: a key-attempt failure whose only error signature sits
in standard output ("connection refused", stderr empty) with no cached
credential is tagged `connection_error` by the code (which searches stderr
only at lines 261-274), while the claimed combined stderr+stdout search
would tag it `connection_refused`. -/
theorem ssh_error_stderr_only_counterexample :
    (hostnamePhase "root" ⟨255, "connection refused", ""⟩ none
        (PwOutcome.completed ⟨0, "", ""⟩)).ssh_error_type = some "connection_error"
    ∧ (classifyCombined "root" "" "connection refused").2 = "connection_refused"
    ∧ some "connection_error" ≠ some "connection_refused" := by
  decide

/-- C7 (amended): every surviving probe failure tag is one of the four
kinds; the tag of a key-attempt failure (no password retry available) is
computed from the standard error alone; the tag of a failed password retry
is computed from the combined stderr+stdout text; and the combined search
applies the priority order timeout, connection refused, permission
denied / authentication failed, catch-all connection_error. -/
theorem ssh_failure_classification_amended (username : String) (keyRes rr : CmdResult)
    (cred : Option Cred) (pw : PwOutcome) (e o : String) :
    ((hostnamePhase username keyRes cred pw).ssh_error_type = none
      ∨ (hostnamePhase username keyRes cred pw).ssh_error_type = some "timeout"
      ∨ (hostnamePhase username keyRes cred pw).ssh_error_type = some "connection_refused"
      ∨ (hostnamePhase username keyRes cred pw).ssh_error_type = some "auth_failed"
      ∨ (hostnamePhase username keyRes cred pw).ssh_error_type = some "connection_error")
    ∧ (keyRes.returncode ≠ 0 → credPassword cred = none →
        (hostnamePhase username keyRes cred pw).ssh_error_type
          = some (classifyStderr username keyRes.stderr).2)
    ∧ (keyRes.returncode ≠ 0 → ∀ c p, cred = some c → c.password = some p →
        pw = PwOutcome.completed rr → rr.returncode ≠ 0 →
        (hostnamePhase username keyRes cred pw).ssh_error_type
          = some (classifyCombined username rr.stderr rr.stdout).2)
    ∧ ((pyIn "timeout" (lowerStr e ++ " " ++ lowerStr o) = true
          ∨ pyIn "timed out" (lowerStr e ++ " " ++ lowerStr o) = true) →
        (classifyCombined username e o).2 = "timeout")
    ∧ (pyIn "timeout" (lowerStr e ++ " " ++ lowerStr o) = false →
        pyIn "timed out" (lowerStr e ++ " " ++ lowerStr o) = false →
        pyIn "connection refused" (lowerStr e ++ " " ++ lowerStr o) = true →
        (classifyCombined username e o).2 = "connection_refused")
    ∧ (pyIn "timeout" (lowerStr e ++ " " ++ lowerStr o) = false →
        pyIn "timed out" (lowerStr e ++ " " ++ lowerStr o) = false →
        pyIn "connection refused" (lowerStr e ++ " " ++ lowerStr o) = false →
        (pyIn "permission denied" (lowerStr e ++ " " ++ lowerStr o) = true
          ∨ pyIn "authentication failed" (lowerStr e ++ " " ++ lowerStr o) = true) →
        (classifyCombined username e o).2 = "auth_failed")
    ∧ (pyIn "timeout" (lowerStr e ++ " " ++ lowerStr o) = false →
        pyIn "timed out" (lowerStr e ++ " " ++ lowerStr o) = false →
        pyIn "connection refused" (lowerStr e ++ " " ++ lowerStr o) = false →
        pyIn "permission denied" (lowerStr e ++ " " ++ lowerStr o) = false →
        pyIn "authentication failed" (lowerStr e ++ " " ++ lowerStr o) = false →
        (classifyCombined username e o).2 = "connection_error") := by
  refine ⟨?_, ?_, ?_, ?_, ?_, ?_, ?_⟩
  · rcases hostnamePhase_type_cases username keyRes cred pw with h | h | ⟨r2, h⟩
    · left; exact h
    · rw [h]
      rcases classifyStderr_tag username keyRes.stderr with t | t | t | t <;> rw [t] <;> simp
    · rw [h]
      rcases classifyCombined_tag username r2.stderr r2.stdout with t | t | t | t <;>
        rw [t] <;> simp
  · intro h hcp
    cases cred with
    | none => simp [hostnamePhase, h]
    | some c =>
      simp only [credPassword] at hcp
      simp [hostnamePhase, h, hcp]
  · intro h c p hc hp hpw hr
    subst hc
    subst hpw
    simp [hostnamePhase, h, hp, hr]
  · intro h
    rcases h with h | h <;> simp [classifyCombined, h]
  · intro h1 h2 h3
    simp [classifyCombined, h1, h2, h3]
  · intro h1 h2 h3 h4
    rcases h4 with h | h <;> simp [classifyCombined, h1, h2, h3, h]
  · intro h1 h2 h3 h4 h5
    simp [classifyCombined, h1, h2, h3, h4, h5]

/-- Witness for the amended C7: a concrete key-only failure is tagged from
its standard error. -/
theorem ssh_failure_classification_amended_witness :
    (hostnamePhase "root"
        ⟨255, "", "ssh: connect to host 10.0.0.5 port 22: Connection refused"⟩
        none (PwOutcome.completed ⟨0, "", ""⟩)).ssh_error_type
      = some (classifyStderr "root"
          "ssh: connect to host 10.0.0.5 port 22: Connection refused").2 :=
  (ssh_failure_classification_amended "root"
      ⟨255, "", "ssh: connect to host 10.0.0.5 port 22: Connection refused"⟩
      ⟨0, "", ""⟩ none (PwOutcome.completed ⟨0, "", ""⟩) "" "").2.1
    (by decide) (by decide)

theorem rawMatches_eq_nil (h u : Option String) (devices : Config)
    (hz : ∀ p ∈ devices, (deviceMatchScore h u p.1 p.2).1 = 0) :
    rawMatches h u devices = [] := by
  unfold rawMatches
  refine List.filterMap_eq_nil_iff.mpr ?_
  intro p hp
  have hsc := hz p hp
  rcases hds : deviceMatchScore h u p.1 p.2 with ⟨s, rs⟩
  rw [hds] at hsc
  simp only at hsc
  subst hsc
  simp [hds]

theorem resolveMatches_props (ip : String) (h u : Option String) (devices : Config)
    (e1 e2 : Option String) :
    sortedDescBool (resolveMatches ip h u devices e1 e2).matches_list = true
    ∧ ((resolveMatches ip h u devices e1 e2).device_found = true ↔
        ∃ m, (resolveMatches ip h u devices e1 e2).matches_list.head? = some m
          ∧ m.match_score ≥ 5)
    ∧ ((resolveMatches ip h u devices e1 e2).device_found = true →
        (resolveMatches ip h u devices e1 e2).device_id
          = (resolveMatches ip h u devices e1 e2).matches_list.head?.map
              (fun m => m.device_id))
    ∧ ((resolveMatches ip h u devices e1 e2).device_found = false →
        (resolveMatches ip h u devices e1 e2).device_id = none)
    ∧ ((∀ p ∈ devices, (deviceMatchScore h u p.1 p.2).1 = 0) →
        (resolveMatches ip h u devices e1 e2).matches_list = []
          ∧ (resolveMatches ip h u devices e1 e2).device_id = none) := by
  refine ⟨?_, ?_, ?_, ?_, ?_⟩
  · have hml : (resolveMatches ip h u devices e1 e2).matches_list
        = sortMatchesDesc (rawMatches h u devices) := rfl
    rw [hml]
    exact sortMatchesDesc_sorted _
  · simp only [resolveMatches]
    cases hs : sortMatchesDesc (rawMatches h u devices) with
    | nil => simp [hs]
    | cons best rest =>
      by_cases hge : best.match_score ≥ 5
      · simp [hs, hge]
      · simp [hs, hge]
  · simp only [resolveMatches]
    cases hs : sortMatchesDesc (rawMatches h u devices) with
    | nil => simp [hs]
    | cons best rest =>
      by_cases hge : best.match_score ≥ 5
      · simp [hs, hge]
      · simp [hs, hge]
  · simp only [resolveMatches]
    cases hs : sortMatchesDesc (rawMatches h u devices) with
    | nil => simp [hs]
    | cons best rest =>
      by_cases hge : best.match_score ≥ 5
      · simp [hs, hge]
      · simp [hs, hge]
  · intro hz
    have hraw := rawMatches_eq_nil h u devices hz
    constructor <;> simp [resolveMatches, hraw, sortMatchesDesc]

/-- C6: identify returns its candidates sorted descending by score, accepts
the top candidate (device_found with its device id) iff its score is at
least 5, and when no inventory record scores positively the candidate list
is empty and the resolved device id is None. -/
theorem identify_sorted_acceptance (ip username : String) (keyRes : CmdResult)
    (cred : Option Cred) (pw : PwOutcome) (uidRuns : List (CmdResult × CmdResult))
    (devices : Config) :
    sortedDescBool
        (verify_device_by_ip ip username keyRes cred pw uidRuns devices).matches_list = true
    ∧ ((verify_device_by_ip ip username keyRes cred pw uidRuns devices).device_found = true ↔
        ∃ m, (verify_device_by_ip ip username keyRes cred pw uidRuns
            devices).matches_list.head? = some m ∧ m.match_score ≥ 5)
    ∧ ((verify_device_by_ip ip username keyRes cred pw uidRuns devices).device_found = true →
        (verify_device_by_ip ip username keyRes cred pw uidRuns devices).device_id
          = (verify_device_by_ip ip username keyRes cred pw uidRuns
              devices).matches_list.head?.map (fun m => m.device_id))
    ∧ ((verify_device_by_ip ip username keyRes cred pw uidRuns devices).device_found = false →
        (verify_device_by_ip ip username keyRes cred pw uidRuns devices).device_id = none)
    ∧ ((∀ p ∈ devices,
          (deviceMatchScore (hostnamePhase username keyRes cred pw).hostname
            (uidFromRuns cred uidRuns) p.1 p.2).1 = 0) →
        (verify_device_by_ip ip username keyRes cred pw uidRuns devices).matches_list = []
          ∧ (verify_device_by_ip ip username keyRes cred pw uidRuns devices).device_id
              = none) :=
  resolveMatches_props ip (hostnamePhase username keyRes cred pw).hostname
    (uidFromRuns cred uidRuns) devices
    (hostnamePhase username keyRes cred pw).ssh_error
    (hostnamePhase username keyRes cred pw).ssh_error_type

theorem uidIdentLoop_finds (expected : Option String) :
    ∀ runs : List SshRes,
      (∃ r ∈ runs, r.success = true ∧ isPlausibleUid (trimStr r.stdout) = true) →
      ∃ u, (uidIdentLoop expected runs).1 = some u := by
  intro runs
  induction runs with
  | nil =>
    rintro ⟨r, hr, _⟩
    cases hr
  | cons r rest ih =>
    rintro ⟨r2, hr2, hs, hp⟩
    by_cases hs1 : r.success = true
    · by_cases hp1 : isPlausibleUid (trimStr r.stdout) = true
      · exact ⟨trimStr r.stdout, by simp [uidIdentLoop, hs1, hp1]⟩
      · rcases List.mem_cons.mp hr2 with he | he
        · subst he
          exact absurd hp hp1
        · rcases ih ⟨r2, he, hs, hp⟩ with ⟨u, hu⟩
          exact ⟨u, by simpa [uidIdentLoop, hs1, hp1] using hu⟩
    · rcases List.mem_cons.mp hr2 with he | he
      · subst he
        exact absurd hs hs1
      · rcases ih ⟨r2, he, hs, hp⟩ with ⟨u, hu⟩
        exact ⟨u, by simpa [uidIdentLoop, hs1] using hu⟩

theorem uidIdentLoop_match_of_no_expected (expected : Option String)
    (hne : truthy expected = false) :
    ∀ runs : List SshRes, ∀ u, (uidIdentLoop expected runs).1 = some u →
      (uidIdentLoop expected runs).2 = true := by
  intro runs
  induction runs with
  | nil =>
    intro u hu
    simp [uidIdentLoop] at hu
  | cons r rest ih =>
    intro u hu
    by_cases hs : r.success = true
    · by_cases hp : isPlausibleUid (trimStr r.stdout) = true
      · simp [uidIdentLoop, hs, hp, hne]
      · simp only [uidIdentLoop, hs, if_true, hp, if_false] at hu ⊢
        exact ih u hu
    · simp only [uidIdentLoop, hs, if_false] at hu ⊢
      exact ih u hu

/-- C10: when the inventory record configures no expected unique id (neither
unique_id nor soc_id), retrieving any plausible unique id from the endpoint
sets unique_id_matches and hence reports the device verified, whatever the
hostname check returned. -/
theorem verify_no_expected_uid (device_id : String) (device : DeviceConf)
    (ipParam : Option String) (hres : SshRes) (uidRuns : List SshRes)
    (hip : truthy (pyOrO ipParam device.ip) = true)
    (hnone : truthy (pyOrO device.unique_id device.soc_id) = false)
    (hex : ∃ r ∈ uidRuns, r.success = true ∧ isPlausibleUid (trimStr r.stdout) = true) :
    (verify_device_identity device_id device ipParam hres uidRuns).unique_id_matches = true
    ∧ (verify_device_identity device_id device ipParam hres uidRuns).verified = true := by
  rcases uidIdentLoop_finds (pyOrO device.unique_id device.soc_id) uidRuns hex with ⟨u, hu⟩
  have hm := uidIdentLoop_match_of_no_expected (pyOrO device.unique_id device.soc_id)
    hnone uidRuns u hu
  constructor <;> simp [verify_device_identity, hip, hm]

/-- Witness for C10: no expected unique id configured, the endpoint returns
a plausible id, the hostname probe failed — still verified. -/
theorem verify_no_expected_uid_witness :
    (verify_device_identity "sentai-01" noUidConf none ⟨false, ""⟩
        [⟨true, "ABCDE12345\n"⟩]).unique_id_matches = true
    ∧ (verify_device_identity "sentai-01" noUidConf none ⟨false, ""⟩
        [⟨true, "ABCDE12345\n"⟩]).verified = true :=
  verify_no_expected_uid "sentai-01" noUidConf none ⟨false, ""⟩ [⟨true, "ABCDE12345\n"⟩]
    (by decide) (by decide)
    ⟨⟨true, "ABCDE12345\n"⟩, by simp, by decide⟩

/-- Witness for C6 at the spec scenario: the top candidate scores 15 and is
accepted. -/
theorem identify_sorted_acceptance_witness :
    (verify_device_by_ip "10.0.0.5" "root" ⟨0, "sentai-01-prod\n", ""⟩ none
        (PwOutcome.completed ⟨0, "", ""⟩) [(⟨0, "ABC123\n", ""⟩, ⟨0, "", ""⟩)]
        sampleDevices).device_found = true :=
  (identify_sorted_acceptance "10.0.0.5" "root" ⟨0, "sentai-01-prod\n", ""⟩ none
      (PwOutcome.completed ⟨0, "", ""⟩) [(⟨0, "ABC123\n", ""⟩, ⟨0, "", ""⟩)]
      sampleDevices).2.1.mpr
    ⟨⟨"sentai-01", "Sentai 1", 15, ["partial_hostname_match", "exact_uid_match"],
        some "10.0.0.4"⟩, by decide, by decide⟩

/-- C2 counterexample: for device id "dev1" with expected hostname "box" and
probed hostname "box-prod", the claim's symmetric containment rule scores 5
(the expected hostname is contained in the probed one), but the code scores
0 — it checks the DEVICE ID against the probed hostname and the probed
hostname against the expected hostname, not either-contains-other — so the
record produces no candidate at all. -/
theorem match_score_rule_counterexample :
    claimHostnameScore "box-prod" "box" = 5
    ∧ (deviceMatchScore (some "box-prod") none "dev1" boxConf).1 = 0
    ∧ rawMatches (some "box-prod") none [("dev1", boxConf)] = [] := by
  decide

theorem deviceMatchScore_eq_amended (h u : Option String) (did : String)
    (conf : DeviceConf) :
    (deviceMatchScore h u did conf).1 = amendedScore h u did conf := by
  unfold deviceMatchScore amendedScore hostnameMatchScore uidMatchScore
  rcases h with _ | hh <;> rcases u with _ | uu <;>
    rcases he : pyOrO conf.unique_id conf.soc_id with _ | ee <;>
      simp [he] <;> (repeat' split) <;> simp_all

/-- C2 (amended): every candidate of identify carries the corrected score —
+10 exact hostname match, else +5 when the device id occurs in the probed
hostname or the probed hostname occurs in the expected hostname (NOT
symmetric containment of the two hostnames); uid part +10 exact else +5 on
either-contains — and the spec scenario still resolves: probed hostname
"sentai-01-prod" and unique id "ABC123" against the sentai-01 record score
15 and resolve to "sentai-01". -/
theorem match_score_amended (ip username : String) (keyRes : CmdResult)
    (cred : Option Cred) (pw : PwOutcome) (uidRuns : List (CmdResult × CmdResult))
    (devices : Config) :
    (∀ m ∈ (verify_device_by_ip ip username keyRes cred pw uidRuns devices).matches_list,
      ∃ p ∈ devices, p.1 = m.device_id
        ∧ m.match_score = amendedScore (hostnamePhase username keyRes cred pw).hostname
            (uidFromRuns cred uidRuns) p.1 p.2
        ∧ m.match_score > 0)
    ∧ (verify_device_by_ip "10.0.0.5" "root" ⟨0, "sentai-01-prod\n", ""⟩ none
        (PwOutcome.completed ⟨0, "", ""⟩) [(⟨0, "ABC123\n", ""⟩, ⟨0, "", ""⟩)]
        sampleDevices).matches_list.head?.map (fun m => m.match_score) = some 15
    ∧ (verify_device_by_ip "10.0.0.5" "root" ⟨0, "sentai-01-prod\n", ""⟩ none
        (PwOutcome.completed ⟨0, "", ""⟩) [(⟨0, "ABC123\n", ""⟩, ⟨0, "", ""⟩)]
        sampleDevices).device_id = some "sentai-01" := by
  refine ⟨?_, by decide, by decide⟩
  intro m hm
  have hm' : m ∈ rawMatches (hostnamePhase username keyRes cred pw).hostname
      (uidFromRuns cred uidRuns) devices :=
    (mem_sortMatchesDesc m _).mp hm
  unfold rawMatches at hm'
  rcases List.mem_filterMap.mp hm' with ⟨p, hp, hf⟩
  rcases hds : deviceMatchScore (hostnamePhase username keyRes cred pw).hostname
      (uidFromRuns cred uidRuns) p.1 p.2 with ⟨s, rs⟩
  rw [hds] at hf
  by_cases hs0 : s > 0
  · simp only [hs0, if_true, Option.some.injEq] at hf
    subst hf
    have ha := deviceMatchScore_eq_amended
      (hostnamePhase username keyRes cred pw).hostname
      (uidFromRuns cred uidRuns) p.1 p.2
    rw [hds] at ha
    exact ⟨p, hp, rfl, ha, hs0⟩
  · simp [hs0] at hf

/-- Witness for the amended C2 at the scenario candidate. -/
theorem match_score_amended_witness :
    ∃ p ∈ sampleDevices,
      p.1 = (⟨"sentai-01", "Sentai 1", 15,
          ["partial_hostname_match", "exact_uid_match"], some "10.0.0.4"⟩
            : MatchEntry).device_id
      ∧ (⟨"sentai-01", "Sentai 1", 15,
          ["partial_hostname_match", "exact_uid_match"], some "10.0.0.4"⟩
            : MatchEntry).match_score
          = amendedScore
              (hostnamePhase "root" ⟨0, "sentai-01-prod\n", ""⟩ none
                (PwOutcome.completed ⟨0, "", ""⟩)).hostname
              (uidFromRuns none [(⟨0, "ABC123\n", ""⟩, ⟨0, "", ""⟩)]) p.1 p.2
      ∧ (⟨"sentai-01", "Sentai 1", 15,
          ["partial_hostname_match", "exact_uid_match"], some "10.0.0.4"⟩
            : MatchEntry).match_score > 0 :=
  (match_score_amended "10.0.0.5" "root" ⟨0, "sentai-01-prod\n", ""⟩ none
      (PwOutcome.completed ⟨0, "", ""⟩) [(⟨0, "ABC123\n", ""⟩, ⟨0, "", ""⟩)]
      sampleDevices).1
    ⟨"sentai-01", "Sentai 1", 15, ["partial_hostname_match", "exact_uid_match"],
      some "10.0.0.4"⟩ (by decide)

theorem confGet_cons (x : String × DeviceConf) (l : Config) (k : String) :
    confGet (x :: l) k = if x.1 == k then some x.2 else confGet l k := by
  simp only [confGet, List.find?]
  cases h : x.1 == k <;> simp [h]

theorem confGet_confSetIp_same (c : Config) (did ip2 : String) :
    confGet (confSetIp c did ip2) did
      = (confGet c did).map (fun d => { d with ip := some ip2 }) := by
  induction c with
  | nil => rfl
  | cons p t ih =>
    by_cases hp : p.1 = did
    · have hb : (p.1 == did) = true := by simp [hp]
      rw [show confSetIp (p :: t) did ip2
          = (p.1, { p.2 with ip := some ip2 }) :: confSetIp t did ip2 from by
        simp [confSetIp, hb, hp]]
      rw [confGet_cons, confGet_cons]
      simp [hb]
    · have hb : (p.1 == did) = false := by simp [hp]
      rw [show confSetIp (p :: t) did ip2 = p :: confSetIp t did ip2 from by
        simp [confSetIp, hb, hp]]
      rw [confGet_cons, confGet_cons]
      simp [hb]
      exact ih

theorem confGet_confSetIp_other (c : Config) (did other ip2 : String)
    (hne : other ≠ did) :
    confGet (confSetIp c did ip2) other = confGet c other := by
  induction c with
  | nil => rfl
  | cons p t ih =>
    by_cases h1 : p.1 = did
    · have hno : p.1 ≠ other := fun he => hne (he ▸ h1)
      have hb1 : (p.1 == did) = true := by simp [h1]
      have hb2 : (p.1 == other) = false := by simp [hno]
      rw [show confSetIp (p :: t) did ip2
          = (p.1, { p.2 with ip := some ip2 }) :: confSetIp t did ip2 from by
        simp [confSetIp, hb1, h1]]
      rw [confGet_cons, confGet_cons]
      simp [hb2]
      exact ih
    · have hb1 : (p.1 == did) = false := by simp [h1]
      rw [show confSetIp (p :: t) did ip2 = p :: confSetIp t did ip2 from by
        simp [confSetIp, hb1, h1]]
      rw [confGet_cons, confGet_cons]
      by_cases h3 : p.1 = other
      · have hb3 : (p.1 == other) = true := by simp [h3]
        simp [hb3]
      · have hb3 : (p.1 == other) = false := by simp [h3]
        simp [hb3]
        exact ih

/-- C8: update_ip_if_verified is atomic on failure — whenever verification
does not report the device verified, the inventory is returned unchanged and
the result reports failure with the full verification detail attached; and
only on success (here: IP actually different and the write succeeding) is
the new IP persisted, by rewriting exactly the one record's ip field, with
the result reporting the old and new IP.  The last two conjuncts pin down
that `confSetIp` touches exactly the one record. -/
theorem update_ip_atomic (config : Config) (resolved : Option String) (new_ip : String)
    (hres : SshRes) (uidRuns : List SshRes) (writeOk : Bool) :
    ((verificationFor config resolved new_ip hres uidRuns).verified = false →
      (update_device_ip_if_changed config resolved new_ip hres uidRuns writeOk).1 = config
      ∧ (update_device_ip_if_changed config resolved new_ip hres uidRuns
          writeOk).2.success = false
      ∧ (update_device_ip_if_changed config resolved new_ip hres uidRuns
          writeOk).2.verification
          = some (verificationFor config resolved new_ip hres uidRuns)
      ∧ (update_device_ip_if_changed config resolved new_ip hres uidRuns writeOk).2.error
          = some "Device identity verification failed. IP not updated.")
    ∧ (∀ did dev, (verificationFor config resolved new_ip hres uidRuns).verified = true →
        (verificationFor config resolved new_ip hres uidRuns).device_id = some did →
        confGet config did = some dev → dev.ip ≠ some new_ip → writeOk = true →
        (update_device_ip_if_changed config resolved new_ip hres uidRuns writeOk).1
            = confSetIp config did new_ip
        ∧ (update_device_ip_if_changed config resolved new_ip hres uidRuns
            writeOk).2.success = true
        ∧ (update_device_ip_if_changed config resolved new_ip hres uidRuns
            writeOk).2.old_ip = dev.ip
        ∧ (update_device_ip_if_changed config resolved new_ip hres uidRuns
            writeOk).2.new_ip = some new_ip
        ∧ (update_device_ip_if_changed config resolved new_ip hres uidRuns
            writeOk).2.verification
            = some (verificationFor config resolved new_ip hres uidRuns))
    ∧ (∀ did ip2, confGet (confSetIp config did ip2) did
        = (confGet config did).map (fun d => { d with ip := some ip2 }))
    ∧ (∀ did other ip2, other ≠ did →
        confGet (confSetIp config did ip2) other = confGet config other) := by
  refine ⟨?_, ?_, fun did ip2 => confGet_confSetIp_same config did ip2,
    fun did other ip2 h => confGet_confSetIp_other config did other ip2 h⟩
  · intro hv
    refine ⟨?_, ?_, ?_, ?_⟩ <;> simp [update_device_ip_if_changed, hv]
  · intro did dev hv hdid hdev hne hwr
    have hbne : (dev.ip == some new_ip) = false := by
      simp [hne]
    refine ⟨?_, ?_, ?_, ?_, ?_⟩ <;>
      simp [update_device_ip_if_changed, hv, hdid, hdev, hbne, hwr]

/-- Witness for C8: a failed verification (wrong hostname, no unique id)
leaves the inventory unchanged and attaches the verification detail. -/
theorem update_ip_atomic_witness :
    (update_device_ip_if_changed sampleDevices (some "sentai-01") "10.0.0.6"
        ⟨true, "other-box\n"⟩ [] true).1 = sampleDevices
    ∧ (update_device_ip_if_changed sampleDevices (some "sentai-01") "10.0.0.6"
        ⟨true, "other-box\n"⟩ [] true).2.success = false
    ∧ (update_device_ip_if_changed sampleDevices (some "sentai-01") "10.0.0.6"
        ⟨true, "other-box\n"⟩ [] true).2.verification
        = some (verificationFor sampleDevices (some "sentai-01") "10.0.0.6"
            ⟨true, "other-box\n"⟩ [])
    ∧ (update_device_ip_if_changed sampleDevices (some "sentai-01") "10.0.0.6"
        ⟨true, "other-box\n"⟩ [] true).2.error
        = some "Device identity verification failed. IP not updated." :=
  (update_ip_atomic sampleDevices (some "sentai-01") "10.0.0.6"
      ⟨true, "other-box\n"⟩ [] true).1 (by decide)
